import Mathlib

/-!
Shallow embedding of `time_report.py` (Toggl time-report CLI).

Modelling conventions:
* A Python `datetime.date` is its proleptic-Gregorian ordinal (`date.toordinal`),
  an `Int`; `date - timedelta(days=n)` is ordinal subtraction.  `strftime("%Y-%m-%d")`
  is `pyDateFormat`, computed by the standard civil-from-days algorithm.
* Timestamps arrive from the API as strings and are parsed with
  `datetime.strptime(s, "%Y-%m-%dT%H:%M:%S%z")`; the script only ever uses the
  parsed value's `.date()` and `.time()`, so a parsed timestamp is modelled as a
  record of its calendar-date ordinal and its time of day.
* Python `dict` (insertion ordered) is an association list; `d.setdefault(k, v0)`
  followed by a read-modify-write of `d[k]` is `dictUpd`, which updates the first
  (unique) binding in place or appends a fresh one at the end.
* Hour values are exact rationals.  `round(x, 1)` on a float uses round-half-to-even
  on the decimal value of the double; on the inputs exercised here (multiples of
  1/4, exactly representable in binary) that coincides with exact rational
  round-half-to-even to one decimal, which is what `pyRound1` computes.
* A failing `assert` is an error result (`Except.error` / `Option.none`).
-/

/-- Floor of a rational, computed directly on its reduced fraction. -/
def ratFloor (x : ℚ) : ℤ := Int.fdiv x.num x.den

/-- Round a rational to the nearest integer, ties to even
(the rounding used by Python's `round`). -/
def roundHalfEven (x : ℚ) : ℤ :=
  let f := ratFloor x
  if x - f < 1/2 then f
  else if (1:ℚ)/2 < x - f then f + 1
  else if f % 2 = 0 then f else f + 1

/-- Python `round(x, 1)`: round to one decimal place, ties to even. -/
def pyRound1 (x : ℚ) : ℚ := (roundHalfEven (x * 10) : ℚ) / 10

/-- Python `str.lower()`: lower-case every character. -/
def pyLower (s : String) : String := String.mk (s.data.map Char.toLower)

/-- Truthiness of `args.client` (an `Optional[str]`): `None` and `""` are falsy. -/
def pyTruthyStr : Option String → Bool
  | none => false
  | some s => !s.isEmpty

/-- Time of day, as produced by `datetime.time()`. -/
structure PyTime where
  hour : Nat
  minute : Nat
  second : Nat
deriving DecidableEq, Repr

/-- A parsed aware timestamp, reduced to the two projections the script uses:
`.date()` (as an ordinal) and `.time()`. -/
structure PyDateTime where
  dateOrd : ℤ
  time : PyTime
deriving DecidableEq, Repr

/-- One nested time-entry detail from the search response:
`{"start": ..., "stop": ..., "seconds": ...}`. -/
structure TimeEntryDetail where
  start : PyDateTime
  stop : PyDateTime
  seconds : ℤ
deriving DecidableEq, Repr

/-- One raw search result: `{"description": ..., "time_entries": [...]}`. -/
structure RawEntry where
  description : String
  time_entries : List TimeEntryDetail
deriving DecidableEq, Repr

/-- The per-entry record built inside `generate_time_report`:
`{"task": ..., "task_hours": ..., "start_time": ..., "stop_time": ...}`. -/
structure DayEntry where
  task : String
  task_hours : ℚ
  start_time : PyTime
  stop_time : PyTime
deriving DecidableEq, Repr

/-- Python-dict update: `d.setdefault(k, v0); d[k] = f(d[k])`.
Updates the first binding of `k` in place, or appends `(k, f v0)`. -/
def dictUpd {κ β : Type} [DecidableEq κ] : List (κ × β) → κ → β → (β → β) → List (κ × β)
  | [], k, v0, f => [(k, f v0)]
  | p :: ps, k, v0, f =>
      if p.1 = k then (p.1, f p.2) :: ps else p :: dictUpd ps k v0 f

/-- Python-dict read with a default: value of the first binding of `k`, else `v0`. -/
def pyGet {κ β : Type} [DecidableEq κ] : List (κ × β) → κ → β → β
  | [], _, v0 => v0
  | p :: ps, k, v0 => if p.1 = k then p.2 else pyGet ps k v0

/-- Accumulating form of first-occurrence deduplication. -/
def dedupAux {α : Type} [DecidableEq α] (acc : List α) (l : List α) : List α :=
  l.foldl (fun acc x => if x ∈ acc then acc else acc ++ [x]) acc

/-- The keys of consecutive dict insertions: first occurrences, in input order. -/
def dedupFirst {α : Type} [DecidableEq α] (l : List α) : List α :=
  dedupAux [] l

/-- The record appended for one raw entry (lines 150-161 of the script). -/
def mkDayEntry (desc : String) (dtl : TimeEntryDetail) : DayEntry :=
  { task := desc
    task_hours := pyRound1 ((dtl.seconds : ℚ) / 3600)
    start_time := dtl.start.time
    stop_time := dtl.stop.time }

/-- Failure modes of report generation (the script's `assert` on the nested count). -/
inductive ReportError where
  | malformedResponse
deriving DecidableEq, Repr

/-- The grouping loop of `generate_time_report` (lines 137-161): fold the raw
entries into the insertion-ordered `entries_by_day` dict, failing on any entry
whose `time_entries` list does not have exactly one element. -/
def groupEntriesAux (acc : List (ℤ × List DayEntry)) :
    List RawEntry → Except ReportError (List (ℤ × List DayEntry))
  | [] => Except.ok acc
  | e :: rest =>
      match e.time_entries with
      | [dtl] =>
          groupEntriesAux
            (dictUpd acc dtl.start.dateOrd [] (fun l => l ++ [mkDayEntry e.description dtl]))
            rest
      | _ => Except.error ReportError.malformedResponse

/-- The per-day task-total dict (lines 165-169): `setdefault(task, 0)` then `+=`. -/
def taskTotals (es : List DayEntry) : List (String × ℚ) :=
  es.foldl (fun acc en => dictUpd acc en.task 0 (fun v => v + en.task_hours)) []

/-- The per-day running total (lines 166-170). -/
def totalHours (es : List DayEntry) : ℚ :=
  es.foldl (fun acc en => acc + en.task_hours) 0

/-- The finished per-day value of `entries_by_day` after the second loop. -/
structure DayData where
  time_entries : List DayEntry
  task_totals : List (String × ℚ)
  total_hours : ℚ
deriving DecidableEq, Repr

/-- Attach the task totals and day total to a day's entry list. -/
def mkDayData (es : List DayEntry) : DayData :=
  { time_entries := es, task_totals := taskTotals es, total_hours := totalHours es }

/-- `generate_time_report` up to rendering: the day-keyed aggregate it builds and
then prints (lines 136-170), or the assertion failure. -/
def generate_time_report (time_entries : List RawEntry) :
    Except ReportError (List (ℤ × DayData)) :=
  (groupEntriesAux [] time_entries).map (fun gs => gs.map (fun p => (p.1, mkDayData p.2)))

/-- The start-date ordinal of a raw entry's (unique) nested detail. -/
def entryDay (e : RawEntry) : ℤ :=
  (e.time_entries.headD ⟨⟨0, 0, 0, 0⟩, ⟨0, 0, 0, 0⟩, 0⟩).start.dateOrd

/-- The `DayEntry` built from a raw entry's (unique) nested detail. -/
def entryItem (e : RawEntry) : DayEntry :=
  mkDayEntry e.description (e.time_entries.headD ⟨⟨0, 0, 0, 0⟩, ⟨0, 0, 0, 0⟩, 0⟩)

/-- Left-pad a numeral with zeros to `w` digits. -/
def natPad (w n : Nat) : String :=
  let s := toString n
  String.mk (List.replicate (w - s.length) '0') ++ s

/-- `date.fromordinal` composed with `strftime("%Y-%m-%d")`: civil-from-days on
the proleptic Gregorian calendar, zero-padded.  (Years are padded to four
digits, which agrees with the platform's `%Y` on every four-digit year.) -/
def pyDateFormat (ord : ℤ) : String :=
  let z : Nat := (ord + 305).toNat
  let era := z / 146097
  let doe := z % 146097
  let yoe := (doe - doe / 1460 + doe / 36524 - doe / 146096) / 365
  let y := yoe + era * 400
  let doy := doe - (365 * yoe + yoe / 4 - yoe / 100)
  let mp := (5 * doy + 2) / 153
  let dd := doy - (153 * mp + 2) / 5 + 1
  let mm := if mp < 10 then mp + 3 else mp - 9
  let yy := if mm ≤ 2 then y + 1 else y
  natPad 4 yy ++ "-" ++ natPad 2 mm ++ "-" ++ natPad 2 dd

/-- `get_previous_date_range` (lines 28-45): `assert num_days >= 1`, then return
`(end_date - timedelta(days=num_days), end_date)` formatted `"%Y-%m-%d"`. -/
def get_previous_date_range (num_days : ℤ) (end_date : ℤ) : Option (String × String) :=
  if 1 ≤ num_days then
    some (pyDateFormat (end_date - num_days), pyDateFormat end_date)
  else none

/-- The JSON body `query_toggl_time_entries` posts (lines 84-89). -/
structure SearchQuery where
  client_ids : List ℤ
  start_date : String
  end_date : String
  order_by : String
deriving DecidableEq, Repr

/-- The query construction inside `query_toggl_time_entries`. -/
def query_toggl_time_entries_query (client_ids : List ℤ) (date_range : String × String) :
    SearchQuery :=
  { client_ids := client_ids
    start_date := date_range.1
    end_date := date_range.2
    order_by := "date" }

/-- One client record from the clients endpoint: `{"name": ..., "id": ...}`. -/
structure ClientRec where
  name : String
  id : ℤ
deriving DecidableEq, Repr

/-- The dict built by `query_toggl_clients` (lines 122-125):
`clients[client["name"].lower()] = client["id"]`, in response order. -/
def query_toggl_clients (records : List ClientRec) : List (String × ℤ) :=
  records.foldl (fun acc c => dictUpd acc (pyLower c.name) c.id (fun _ => c.id)) []

/-- `strftime("%H:%M")` on a time of day. -/
def fmtHM (t : PyTime) : String := natPad 2 t.hour ++ ":" ++ natPad 2 t.minute

/-- The `f"{x:3.1f}"` formatting of an hour value, for the nonnegative multiples
of one tenth that the report produces. -/
def fmtHours1 (q : ℚ) : String :=
  let k := ratFloor (q * 10)
  let s := toString (k / 10) ++ "." ++ toString (k % 10)
  String.mk (List.replicate (3 - s.length) ' ') ++ s

/-- One line of the `Time Entries:` section (lines 180-185). -/
def renderEntryLine (en : DayEntry) : String :=
  en.task ++ ", " ++ fmtHM en.start_time ++ "->" ++ fmtHM en.stop_time ++ ", "
    ++ fmtHours1 en.task_hours ++ "hrs"

/-- Outcome of the `__main__` block, after the clients dict has been resolved. -/
inductive MainOutcome where
  | listedClients (printed : List String)
  | clientNotFound (printed : List String)
  | searched (q : SearchQuery)
  | crashed
deriving DecidableEq, Repr

/-- The `__main__` control flow from line 267 on: `--list_clients` short-circuit,
client-filter resolution with Python truthiness on `args.client`, then the
search query built from `get_previous_date_range(args.numdays, today)`. -/
def mainFlow (list_clients : Bool) (client : Option String) (clients : List (String × ℤ))
    (numdays : ℤ) (today : ℤ) : MainOutcome :=
  if list_clients then MainOutcome.listedClients (clients.map Prod.fst)
  else if pyTruthyStr client then
    let client_name := pyLower (client.getD "")
    if clients.any (fun p => p.1 = client_name) then
      match get_previous_date_range numdays today with
      | some dr =>
          MainOutcome.searched
            (query_toggl_time_entries_query [pyGet clients client_name 0] dr)
      | none => MainOutcome.crashed
    else MainOutcome.clientNotFound (clients.map Prod.fst)
  else
    match get_previous_date_range numdays today with
    | some dr => MainOutcome.searched (query_toggl_time_entries_query [] dr)
    | none => MainOutcome.crashed


/-! ### Basic facts about the rational floor and Python rounding -/

theorem ratFloor_eq_floor (x : ℚ) : ratFloor x = ⌊x⌋ := by
  rw [ratFloor, Int.fdiv_eq_ediv _ (by positivity : (0:ℤ) ≤ (x.den : ℤ))]
  conv_rhs => rw [← Rat.num_div_den x]
  rw [Rat.floor_intCast_div_natCast]

theorem roundHalfEven_intCast (n : ℤ) : roundHalfEven (n : ℚ) = n := by
  rw [roundHalfEven, ratFloor_eq_floor, Int.floor_intCast]
  norm_num

theorem roundHalfEven_five_halves : roundHalfEven ((5:ℚ)/2) = 2 := by
  have hf : ratFloor ((5:ℚ)/2) = 2 := by
    rw [ratFloor_eq_floor, Int.floor_eq_iff]
    norm_num
  rw [roundHalfEven, hf]
  rw [if_neg (by norm_num), if_neg (by norm_num), if_pos (by decide)]

theorem pyRound1_3600 : pyRound1 (((3600:ℤ) : ℚ) / 3600) = 1 := by
  rw [pyRound1, show (((3600:ℤ) : ℚ) / 3600) * 10 = ((10:ℤ) : ℚ) by norm_num,
    roundHalfEven_intCast]
  norm_num

theorem pyRound1_1800 : pyRound1 (((1800:ℤ) : ℚ) / 3600) = 1/2 := by
  rw [pyRound1, show (((1800:ℤ) : ℚ) / 3600) * 10 = ((5:ℤ) : ℚ) by norm_num,
    roundHalfEven_intCast]
  norm_num

theorem pyRound1_900 : pyRound1 (((900:ℤ) : ℚ) / 3600) = 1/5 := by
  rw [pyRound1, show (((900:ℤ) : ℚ) / 3600) * 10 = (5:ℚ)/2 by norm_num,
    roundHalfEven_five_halves]
  norm_num

theorem pyRound1_7200 : pyRound1 (((7200:ℤ) : ℚ) / 3600) = 2 := by
  rw [pyRound1, show (((7200:ℤ) : ℚ) / 3600) * 10 = ((20:ℤ) : ℚ) by norm_num,
    roundHalfEven_intCast]
  norm_num

/-! ### The association-list model of Python dicts -/

theorem dictUpd_keys {κ β : Type} [DecidableEq κ] (l : List (κ × β)) (k : κ) (v0 : β)
    (f : β → β) :
    (dictUpd l k v0 f).map Prod.fst =
      if k ∈ l.map Prod.fst then l.map Prod.fst else l.map Prod.fst ++ [k] := by
  induction l with
  | nil => simp [dictUpd]
  | cons p ps ih =>
      by_cases hp : p.1 = k
      · simp [dictUpd, hp]
      · simp only [dictUpd, if_neg hp, List.map_cons, ih, List.mem_cons]
        by_cases hm : k ∈ ps.map Prod.fst
        · simp [hm, Ne.symm hp]
        · simp [hm, Ne.symm hp]

theorem pyGet_dictUpd {κ β : Type} [DecidableEq κ] (l : List (κ × β)) (k : κ) (v0 : β)
    (f : β → β) (k' : κ) :
    pyGet (dictUpd l k v0 f) k' v0 =
      if k' = k then f (pyGet l k v0) else pyGet l k' v0 := by
  induction l with
  | nil =>
      simp only [dictUpd, pyGet]
      split_ifs <;> first | rfl | simp_all
  | cons p ps ih =>
      obtain ⟨a, b⟩ := p
      by_cases hp : a = k
      · simp only [dictUpd, if_pos hp, pyGet]
        split_ifs <;> first | rfl | simp_all
      · simp only [dictUpd, if_neg hp, pyGet, ih]
        split_ifs <;> first | rfl | simp_all

theorem pyGet_dictUpd_const {κ β : Type} [DecidableEq κ] (l : List (κ × β)) (k : κ) (v0 : β)
    (v : β) (k' : κ) (d0 : β) :
    pyGet (dictUpd l k v0 (fun _ => v)) k' d0 =
      if k' = k then v else pyGet l k' d0 := by
  induction l with
  | nil =>
      simp only [dictUpd, pyGet]
      split_ifs <;> first | rfl | simp_all
  | cons p ps ih =>
      obtain ⟨a, b⟩ := p
      by_cases hp : a = k
      · simp only [dictUpd, if_pos hp, pyGet]
        split_ifs <;> first | rfl | simp_all
      · simp only [dictUpd, if_neg hp, pyGet, ih]
        split_ifs <;> first | rfl | simp_all

theorem dedupAux_cons {α : Type} [DecidableEq α] (acc : List α) (x : α) (l : List α) :
    dedupAux acc (x :: l) = dedupAux (if x ∈ acc then acc else acc ++ [x]) l := rfl

theorem mem_dedupAux {α : Type} [DecidableEq α] (y : α) (l : List α) :
    ∀ acc, y ∈ dedupAux acc l ↔ y ∈ acc ∨ y ∈ l := by
  induction l with
  | nil => intro acc; simp [dedupAux]
  | cons x xs ih =>
      intro acc
      rw [dedupAux_cons, ih]
      by_cases hx : x ∈ acc
      · simp only [if_pos hx, List.mem_cons]
        constructor
        · rintro (h | h)
          · exact Or.inl h
          · exact Or.inr (Or.inr h)
        · rintro (h | h | h)
          · exact Or.inl h
          · exact Or.inl (h ▸ hx)
          · exact Or.inr h
      · simp only [if_neg hx, List.mem_append, List.mem_singleton, List.mem_cons]
        tauto

theorem nodup_dedupAux {α : Type} [DecidableEq α] (l : List α) :
    ∀ acc : List α, acc.Nodup → (dedupAux acc l).Nodup := by
  induction l with
  | nil => intro acc h; simpa [dedupAux] using h
  | cons x xs ih =>
      intro acc h
      rw [dedupAux_cons]
      by_cases hx : x ∈ acc
      · exact ih _ (by simpa [hx] using h)
      · refine ih _ ?_
        rw [if_neg hx]
        simpa [List.nodup_append] using ⟨h, hx⟩

theorem nodup_dedupFirst {α : Type} [DecidableEq α] (l : List α) : (dedupFirst l).Nodup :=
  nodup_dedupAux l [] List.nodup_nil

theorem pyGet_of_mem {κ β : Type} [DecidableEq κ] (l : List (κ × β))
    (hn : (l.map Prod.fst).Nodup) (p : κ × β) (hp : p ∈ l) (d0 : β) :
    pyGet l p.1 d0 = p.2 := by
  induction l with
  | nil => cases hp
  | cons q qs ih =>
      rcases List.mem_cons.mp hp with h | h
      · subst h; simp [pyGet]
      · have hne : ¬ q.1 = p.1 := by
          intro he
          have : p.1 ∈ qs.map Prod.fst := List.mem_map.mpr ⟨p, h, rfl⟩
          exact (List.nodup_cons.mp hn).1 (he ▸ this)
        simp only [pyGet, if_neg hne]
        exact ih (List.nodup_cons.mp hn).2 h

/-! ### Folding dict updates over a list -/

theorem foldl_dictUpd_keys {α κ β : Type} [DecidableEq κ] (key : α → κ) (v0 : α → β)
    (f : α → β → β) :
    ∀ (xs : List α) (acc : List (κ × β)),
      ((xs.foldl (fun acc x => dictUpd acc (key x) (v0 x) (f x)) acc).map Prod.fst)
        = dedupAux (acc.map Prod.fst) (xs.map key) := by
  intro xs
  induction xs with
  | nil => intro acc; simp [dedupAux]
  | cons x xs ih =>
      intro acc
      rw [List.foldl_cons, ih, List.map_cons, dedupAux_cons, dictUpd_keys]

theorem foldl_dictUpd_pyGet {α κ β : Type} [DecidableEq κ] (key : α → κ) (v0 : β)
    (f : α → β → β) :
    ∀ (xs : List α) (acc : List (κ × β)) (k : κ),
      pyGet (xs.foldl (fun acc x => dictUpd acc (key x) v0 (f x)) acc) k v0
        = (xs.filter (fun x => key x = k)).foldl (fun b x => f x b) (pyGet acc k v0) := by
  intro xs
  induction xs with
  | nil => intro acc k; simp
  | cons x xs ih =>
      intro acc k
      by_cases h : key x = k
      · rw [List.foldl_cons, ih, pyGet_dictUpd, if_pos h.symm,
          List.filter_cons_of_pos (by simp [h]), List.foldl_cons, h]
      · rw [List.foldl_cons, ih, pyGet_dictUpd, if_neg (fun hh => h hh.symm),
          List.filter_cons_of_neg (by simp [h])]

theorem foldl_append_singleton {α β : Type} (g : α → β) :
    ∀ (xs : List α) (b0 : List β),
      xs.foldl (fun b x => b ++ [g x]) b0 = b0 ++ xs.map g := by
  intro xs
  induction xs with
  | nil => intro b0; simp
  | cons x xs ih => intro b0; simp [ih]

theorem foldl_add_map {α : Type} (f : α → ℚ) :
    ∀ (xs : List α) (c : ℚ),
      xs.foldl (fun a x => a + f x) c = c + (xs.map f).sum := by
  intro xs
  induction xs with
  | nil => intro c; simp
  | cons x xs ih => intro c; simp [ih, add_assoc]

theorem sum_snd_dictUpd {κ : Type} [DecidableEq κ] (k : κ) (h : ℚ) :
    ∀ l : List (κ × ℚ),
      ((dictUpd l k 0 (fun v => v + h)).map Prod.snd).sum = (l.map Prod.snd).sum + h := by
  intro l
  induction l with
  | nil => simp [dictUpd]
  | cons p ps ih =>
      by_cases hp : p.1 = k
      · simp only [dictUpd, if_pos hp, List.map_cons, List.sum_cons]
        ring
      · simp only [dictUpd, if_neg hp, List.map_cons, List.sum_cons, ih]
        ring

/-! ### The grouping loop -/

theorem groupEntriesAux_cons (acc : List (ℤ × List DayEntry)) (e : RawEntry)
    (rest : List RawEntry) :
    groupEntriesAux acc (e :: rest) =
      match e.time_entries with
      | [dtl] =>
          groupEntriesAux
            (dictUpd acc dtl.start.dateOrd [] (fun l => l ++ [mkDayEntry e.description dtl]))
            rest
      | _ => Except.error ReportError.malformedResponse := rfl

theorem groupEntriesAux_ok (tes : List RawEntry) :
    ∀ acc, (∀ e ∈ tes, e.time_entries.length = 1) →
      groupEntriesAux acc tes
        = Except.ok (tes.foldl
            (fun acc e => dictUpd acc (entryDay e) [] (fun l => l ++ [entryItem e])) acc) := by
  induction tes with
  | nil => intro acc _; rfl
  | cons e rest ih =>
      intro acc h
      have he := h e (List.mem_cons_self e rest)
      rcases hte : e.time_entries with _ | ⟨dtl, _ | ⟨dtl2, ds⟩⟩
      · rw [hte] at he; simp at he
      · rw [groupEntriesAux_cons, hte]
        have hstep :
            dictUpd acc dtl.start.dateOrd [] (fun l => l ++ [mkDayEntry e.description dtl])
              = dictUpd acc (entryDay e) [] (fun l => l ++ [entryItem e]) := by
          simp [entryDay, entryItem, hte]
        rw [List.foldl_cons, ← hstep]
        exact ih _ (fun e' he' => h e' (List.mem_cons_of_mem _ he'))
      · rw [hte] at he; simp at he

theorem groupEntriesAux_malformed (tes : List RawEntry) :
    ∀ acc, (∃ e ∈ tes, e.time_entries.length ≠ 1) →
      groupEntriesAux acc tes = Except.error ReportError.malformedResponse := by
  induction tes with
  | nil => intro acc h; simp at h
  | cons e rest ih =>
      intro acc h
      rcases hte : e.time_entries with _ | ⟨dtl, _ | ⟨dtl2, ds⟩⟩
      · rw [groupEntriesAux_cons, hte]
      · rw [groupEntriesAux_cons, hte]
        apply ih
        rcases h with ⟨e', he', hlen⟩
        rcases List.mem_cons.mp he' with rfl | hmem
        · rw [hte] at hlen; simp at hlen
        · exact ⟨e', hmem, hlen⟩
      · rw [groupEntriesAux_cons, hte]

theorem generate_time_report_ok (tes : List RawEntry)
    (h : ∀ e ∈ tes, e.time_entries.length = 1) :
    generate_time_report tes
      = Except.ok ((tes.foldl
          (fun acc e => dictUpd acc (entryDay e) [] (fun l => l ++ [entryItem e])) []).map
            (fun p => (p.1, mkDayData p.2))) := by
  rw [generate_time_report, groupEntriesAux_ok tes [] h]
  rfl

theorem groupFold_keys (tes : List RawEntry) :
    ((tes.foldl (fun acc e => dictUpd acc (entryDay e) [] (fun l => l ++ [entryItem e]))
        []).map Prod.fst)
      = dedupFirst (tes.map entryDay) :=
  foldl_dictUpd_keys entryDay (fun _ => ([] : List DayEntry)) (fun e l => l ++ [entryItem e]) tes []

theorem groupFold_pyGet (tes : List RawEntry) (d : ℤ) :
    pyGet (tes.foldl (fun acc e => dictUpd acc (entryDay e) [] (fun l => l ++ [entryItem e]))
        []) d []
      = (tes.filter (fun e => entryDay e = d)).map entryItem := by
  have h := foldl_dictUpd_pyGet entryDay ([] : List DayEntry)
    (fun e l => l ++ [entryItem e]) tes [] d
  rw [h, foldl_append_singleton entryItem]
  rfl

/-! ### The per-day task totals -/

theorem taskTotals_keys (es : List DayEntry) :
    (taskTotals es).map Prod.fst = dedupFirst (es.map DayEntry.task) :=
  foldl_dictUpd_keys DayEntry.task (fun _ => (0:ℚ)) (fun en v => v + en.task_hours) es []

theorem taskTotals_pyGet (es : List DayEntry) (t : String) :
    pyGet (taskTotals es) t 0
      = ((es.filter (fun en => en.task = t)).map DayEntry.task_hours).sum := by
  have h := foldl_dictUpd_pyGet DayEntry.task (0:ℚ) (fun en v => v + en.task_hours) es [] t
  rw [taskTotals, h]
  rw [show pyGet ([] : List (String × ℚ)) t 0 = 0 from rfl,
    foldl_add_map DayEntry.task_hours, zero_add]

theorem totalHours_eq_sum (es : List DayEntry) :
    totalHours es = (es.map DayEntry.task_hours).sum := by
  rw [totalHours, foldl_add_map DayEntry.task_hours, zero_add]

theorem sum_snd_taskFold :
    ∀ (es : List DayEntry) (acc : List (String × ℚ)),
      ((es.foldl (fun acc en => dictUpd acc en.task 0 (fun v => v + en.task_hours)) acc).map
          Prod.snd).sum
        = (acc.map Prod.snd).sum + (es.map DayEntry.task_hours).sum := by
  intro es
  induction es with
  | nil => intro acc; simp
  | cons en es ih =>
      intro acc
      rw [List.foldl_cons, ih, sum_snd_dictUpd]
      rw [List.map_cons, List.sum_cons]
      ring

theorem sum_taskTotals (es : List DayEntry) :
    ((taskTotals es).map Prod.snd).sum = (es.map DayEntry.task_hours).sum := by
  rw [taskTotals, sum_snd_taskFold]
  simp

/-! ### Claims about aggregation -/

/-- C2: if any raw entry's nested detail list has length other than one,
`generate_time_report` fails with the malformed-response error before producing
any report, rather than dropping the entry. -/
theorem generate_malformed_fails (tes : List RawEntry)
    (h : ∃ e ∈ tes, e.time_entries.length ≠ 1) :
    generate_time_report tes = Except.error ReportError.malformedResponse := by
  rw [generate_time_report, groupEntriesAux_malformed tes [] h]
  rfl

/-- C2 witness: a concrete input whose second entry has two nested details. -/
theorem generate_malformed_fails_witness :
    (∃ e ∈ [RawEntry.mk "A" [⟨⟨1, 9, 0, 0⟩, ⟨1, 10, 0, 0⟩, 3600⟩],
            RawEntry.mk "B" [⟨⟨1, 9, 0, 0⟩, ⟨1, 10, 0, 0⟩, 3600⟩,
                             ⟨⟨1, 11, 0, 0⟩, ⟨1, 12, 0, 0⟩, 3600⟩]],
        e.time_entries.length ≠ 1) ∧
    generate_time_report
        [RawEntry.mk "A" [⟨⟨1, 9, 0, 0⟩, ⟨1, 10, 0, 0⟩, 3600⟩],
         RawEntry.mk "B" [⟨⟨1, 9, 0, 0⟩, ⟨1, 10, 0, 0⟩, 3600⟩,
                          ⟨⟨1, 11, 0, 0⟩, ⟨1, 12, 0, 0⟩, 3600⟩]]
      = Except.error ReportError.malformedResponse :=
  ⟨by decide, generate_malformed_fails _ (by decide)⟩

/-- C3: with well-formed input, aggregation partitions the entries: the report's
days are the entries' start dates in first-encountered order, and each day's
entry list is exactly the input entries starting on that date, in input order
(so no entry is dropped or duplicated). -/
theorem generate_groups_partition (tes : List RawEntry)
    (h : ∀ e ∈ tes, e.time_entries.length = 1) :
    ∃ r, generate_time_report tes = Except.ok r ∧
      r.map Prod.fst = dedupFirst (tes.map entryDay) ∧
      ∀ p ∈ r, p.2.time_entries = (tes.filter (fun e => entryDay e = p.1)).map entryItem := by
  refine ⟨_, generate_time_report_ok tes h, ?_, ?_⟩
  · rw [List.map_map]
    rw [show (Prod.fst ∘ fun p : ℤ × List DayEntry => (p.1, mkDayData p.2)) = Prod.fst from rfl]
    exact groupFold_keys tes
  · intro p hp
    rcases List.mem_map.mp hp with ⟨q, hq, rfl⟩
    have hnod : ((tes.foldl
        (fun acc e => dictUpd acc (entryDay e) [] (fun l => l ++ [entryItem e])) []).map
          Prod.fst).Nodup := by
      rw [groupFold_keys]
      exact nodup_dedupFirst _
    have hq2 := pyGet_of_mem _ hnod q hq []
    show q.2 = _
    rw [← hq2, groupFold_pyGet]

/-- C3 witness: two entries on one date and one on a later date. -/
theorem generate_groups_partition_witness :
    (∀ e ∈ [RawEntry.mk "A" [⟨⟨5, 9, 0, 0⟩, ⟨5, 10, 0, 0⟩, 3600⟩],
            RawEntry.mk "B" [⟨⟨6, 9, 0, 0⟩, ⟨6, 10, 0, 0⟩, 3600⟩],
            RawEntry.mk "C" [⟨⟨5, 11, 0, 0⟩, ⟨5, 12, 0, 0⟩, 3600⟩]],
        e.time_entries.length = 1) ∧
    ∃ r, generate_time_report
          [RawEntry.mk "A" [⟨⟨5, 9, 0, 0⟩, ⟨5, 10, 0, 0⟩, 3600⟩],
           RawEntry.mk "B" [⟨⟨6, 9, 0, 0⟩, ⟨6, 10, 0, 0⟩, 3600⟩],
           RawEntry.mk "C" [⟨⟨5, 11, 0, 0⟩, ⟨5, 12, 0, 0⟩, 3600⟩]]
        = Except.ok r ∧
      r.map Prod.fst
        = dedupFirst ([RawEntry.mk "A" [⟨⟨5, 9, 0, 0⟩, ⟨5, 10, 0, 0⟩, 3600⟩],
             RawEntry.mk "B" [⟨⟨6, 9, 0, 0⟩, ⟨6, 10, 0, 0⟩, 3600⟩],
             RawEntry.mk "C" [⟨⟨5, 11, 0, 0⟩, ⟨5, 12, 0, 0⟩, 3600⟩]].map entryDay) ∧
      ∀ p ∈ r, p.2.time_entries
        = ([RawEntry.mk "A" [⟨⟨5, 9, 0, 0⟩, ⟨5, 10, 0, 0⟩, 3600⟩],
             RawEntry.mk "B" [⟨⟨6, 9, 0, 0⟩, ⟨6, 10, 0, 0⟩, 3600⟩],
             RawEntry.mk "C" [⟨⟨5, 11, 0, 0⟩, ⟨5, 12, 0, 0⟩, 3600⟩]].filter
              (fun e => entryDay e = p.1)).map entryItem :=
  ⟨by decide, generate_groups_partition _ (by decide)⟩

/-- C4: in every generated day report, `total_hours` is the sum of the
`task_totals` values; `task_totals` is keyed by distinct task descriptions in
first-seen order (exact, case-sensitive string match), each mapped to the sum of
the matching entries' `task_hours`. -/
theorem dayReport_totals (tes : List RawEntry) (r : List (ℤ × DayData))
    (h : generate_time_report tes = Except.ok r) :
    ∀ p ∈ r,
      p.2.total_hours = (p.2.task_totals.map Prod.snd).sum ∧
      p.2.task_totals.map Prod.fst = dedupFirst (p.2.time_entries.map DayEntry.task) ∧
      ∀ q ∈ p.2.task_totals,
        q.2 = ((p.2.time_entries.filter (fun en => en.task = q.1)).map
          DayEntry.task_hours).sum := by
  intro p hp
  obtain ⟨es, hes⟩ : ∃ es, p.2 = mkDayData es := by
    rw [generate_time_report] at h
    cases hg : groupEntriesAux [] tes with
    | error err => rw [hg] at h; simp [Except.map] at h
    | ok gs =>
        rw [hg] at h
        simp only [Except.map, Except.ok.injEq] at h
        rw [← h] at hp
        rcases List.mem_map.mp hp with ⟨q, _, rfl⟩
        exact ⟨q.2, rfl⟩
  rw [hes]
  refine ⟨?_, taskTotals_keys es, ?_⟩
  · show totalHours es = ((taskTotals es).map Prod.snd).sum
    rw [totalHours_eq_sum, sum_taskTotals]
  · intro q hq
    have hnod : ((taskTotals es).map Prod.fst).Nodup := by
      rw [taskTotals_keys]
      exact nodup_dedupFirst _
    have h1 := pyGet_of_mem _ hnod q hq 0
    rw [← h1, taskTotals_pyGet]
    rfl

/-- C4 witness: one day with two tasks, one of them repeated. -/
theorem dayReport_totals_witness :
    (mkDayData [⟨"A", 1, ⟨9,0,0⟩, ⟨10,0,0⟩⟩, ⟨"B", 1/2, ⟨10,0,0⟩, ⟨10,30,0⟩⟩,
        ⟨"A", 1, ⟨11,0,0⟩, ⟨12,0,0⟩⟩]).total_hours
      = ((mkDayData [⟨"A", 1, ⟨9,0,0⟩, ⟨10,0,0⟩⟩, ⟨"B", 1/2, ⟨10,0,0⟩, ⟨10,30,0⟩⟩,
        ⟨"A", 1, ⟨11,0,0⟩, ⟨12,0,0⟩⟩]).task_totals.map Prod.snd).sum ∧
    (mkDayData [⟨"A", 1, ⟨9,0,0⟩, ⟨10,0,0⟩⟩, ⟨"B", 1/2, ⟨10,0,0⟩, ⟨10,30,0⟩⟩,
        ⟨"A", 1, ⟨11,0,0⟩, ⟨12,0,0⟩⟩]).task_totals.map Prod.fst
      = dedupFirst ((mkDayData [⟨"A", 1, ⟨9,0,0⟩, ⟨10,0,0⟩⟩, ⟨"B", 1/2, ⟨10,0,0⟩, ⟨10,30,0⟩⟩,
        ⟨"A", 1, ⟨11,0,0⟩, ⟨12,0,0⟩⟩]).time_entries.map DayEntry.task) ∧
    ∀ q ∈ (mkDayData [⟨"A", 1, ⟨9,0,0⟩, ⟨10,0,0⟩⟩, ⟨"B", 1/2, ⟨10,0,0⟩, ⟨10,30,0⟩⟩,
        ⟨"A", 1, ⟨11,0,0⟩, ⟨12,0,0⟩⟩]).task_totals,
      q.2 = (((mkDayData [⟨"A", 1, ⟨9,0,0⟩, ⟨10,0,0⟩⟩, ⟨"B", 1/2, ⟨10,0,0⟩, ⟨10,30,0⟩⟩,
        ⟨"A", 1, ⟨11,0,0⟩, ⟨12,0,0⟩⟩]).time_entries.filter (fun en => en.task = q.1)).map
          DayEntry.task_hours).sum :=
  (dayReport_totals
    [RawEntry.mk "A" [⟨⟨5, 9, 0, 0⟩, ⟨5, 10, 0, 0⟩, 3600⟩],
     RawEntry.mk "B" [⟨⟨5, 10, 0, 0⟩, ⟨5, 10, 30, 0⟩, 1800⟩],
     RawEntry.mk "A" [⟨⟨5, 11, 0, 0⟩, ⟨5, 12, 0, 0⟩, 3600⟩]] _
    (by
      rw [generate_time_report_ok _ (by decide)]
      rw [show ([RawEntry.mk "A" [⟨⟨5, 9, 0, 0⟩, ⟨5, 10, 0, 0⟩, 3600⟩],
           RawEntry.mk "B" [⟨⟨5, 10, 0, 0⟩, ⟨5, 10, 30, 0⟩, 1800⟩],
           RawEntry.mk "A" [⟨⟨5, 11, 0, 0⟩, ⟨5, 12, 0, 0⟩, 3600⟩]].foldl
            (fun acc e => dictUpd acc (entryDay e) [] (fun l => l ++ [entryItem e])) []).map
              (fun p => (p.1, mkDayData p.2))
          = [((5:ℤ), mkDayData [entryItem (RawEntry.mk "A" [⟨⟨5, 9, 0, 0⟩, ⟨5, 10, 0, 0⟩, 3600⟩]),
              entryItem (RawEntry.mk "B" [⟨⟨5, 10, 0, 0⟩, ⟨5, 10, 30, 0⟩, 1800⟩]),
              entryItem (RawEntry.mk "A" [⟨⟨5, 11, 0, 0⟩, ⟨5, 12, 0, 0⟩, 3600⟩])])] from rfl]
      rw [show entryItem (RawEntry.mk "A" [⟨⟨5, 9, 0, 0⟩, ⟨5, 10, 0, 0⟩, 3600⟩])
          = ⟨"A", 1, ⟨9,0,0⟩, ⟨10,0,0⟩⟩ from by
        simp only [entryItem, mkDayEntry, List.headD]
        rw [pyRound1_3600]]
      rw [show entryItem (RawEntry.mk "B" [⟨⟨5, 10, 0, 0⟩, ⟨5, 10, 30, 0⟩, 1800⟩])
          = ⟨"B", 1/2, ⟨10,0,0⟩, ⟨10,30,0⟩⟩ from by
        simp only [entryItem, mkDayEntry, List.headD]
        rw [pyRound1_1800]]
      rw [show entryItem (RawEntry.mk "A" [⟨⟨5, 11, 0, 0⟩, ⟨5, 12, 0, 0⟩, 3600⟩])
          = ⟨"A", 1, ⟨11,0,0⟩, ⟨12,0,0⟩⟩ from by
        simp only [entryItem, mkDayEntry, List.headD]
        rw [pyRound1_3600]]))
    ((5:ℤ), mkDayData [⟨"A", 1, ⟨9,0,0⟩, ⟨10,0,0⟩⟩, ⟨"B", 1/2, ⟨10,0,0⟩, ⟨10,30,0⟩⟩,
        ⟨"A", 1, ⟨11,0,0⟩, ⟨12,0,0⟩⟩])
    (List.mem_singleton.mpr rfl)

/-! ### Claims about the date range -/

/-- C5: for `num_days ≥ 1` the range is `(d - num_days, d)` formatted as
`YYYY-MM-DD` strings, with `start < end` and a span of exactly `num_days` days;
for `num_days < 1` the function fails. -/
theorem date_range_ok (n d : ℤ) :
    (1 ≤ n →
      get_previous_date_range n d = some (pyDateFormat (d - n), pyDateFormat d) ∧
      d - n < d ∧ d - (d - n) = n) ∧
    (n < 1 → get_previous_date_range n d = none) := by
  constructor
  · intro h
    refine ⟨?_, by omega, by ring⟩
    rw [get_previous_date_range, if_pos h]
  · intro h
    rw [get_previous_date_range, if_neg (by omega)]

/-- C5 witness: three days back from 2024-06-14 (ordinal 739051). -/
theorem date_range_ok_witness :
    (1:ℤ) ≤ 3 ∧
    (get_previous_date_range 3 739051 = some (pyDateFormat (739051 - 3), pyDateFormat 739051) ∧
      (739051:ℤ) - 3 < 739051 ∧ (739051:ℤ) - (739051 - 3) = 3) ∧
    pyDateFormat 739051 = "2024-06-14" ∧ pyDateFormat (739051 - 3) = "2024-06-11" :=
  ⟨by decide, (date_range_ok 3 739051).1 (by decide), rfl, rfl⟩

/-- C10: the returned endpoints span `num_days`, and interpreted as an inclusive
interval (as the search query consuming them does) they cover `num_days + 1`
calendar dates including the end date; the query passes both endpoints through
unchanged. -/
theorem date_range_inclusive_span (n d : ℤ) (cids : List ℤ) (h : 1 ≤ n) :
    get_previous_date_range n d = some (pyDateFormat (d - n), pyDateFormat d) ∧
    (query_toggl_time_entries_query cids (pyDateFormat (d - n), pyDateFormat d)).start_date
      = pyDateFormat (d - n) ∧
    (query_toggl_time_entries_query cids (pyDateFormat (d - n), pyDateFormat d)).end_date
      = pyDateFormat d ∧
    d - (d - n) = n ∧
    d ∈ Finset.Icc (d - n) d ∧
    (Finset.Icc (d - n) d).card = n.toNat + 1 := by
  refine ⟨?_, rfl, rfl, by ring, ?_, ?_⟩
  · rw [get_previous_date_range, if_pos h]
  · rw [Finset.mem_Icc]
    omega
  · rw [Int.card_Icc]
    omega

/-- C10 witness: a 14-day flag value covers 15 inclusive dates. -/
theorem date_range_inclusive_span_witness :
    (1:ℤ) ≤ 14 ∧
    (get_previous_date_range 14 739051
        = some (pyDateFormat (739051 - 14), pyDateFormat 739051) ∧
      (query_toggl_time_entries_query [] (pyDateFormat (739051 - 14),
          pyDateFormat 739051)).start_date = pyDateFormat (739051 - 14) ∧
      (query_toggl_time_entries_query [] (pyDateFormat (739051 - 14),
          pyDateFormat 739051)).end_date = pyDateFormat 739051 ∧
      (739051:ℤ) - (739051 - 14) = 14 ∧
      (739051:ℤ) ∈ Finset.Icc ((739051:ℤ) - 14) 739051 ∧
      (Finset.Icc ((739051:ℤ) - 14) 739051).card = (14:ℤ).toNat + 1) :=
  ⟨by decide, date_range_inclusive_span 14 739051 [] (by decide)⟩

/-! ### The spec's rounding scenario (claim C1) -/

/-- First "Design" entry of the scenario: 2024-06-14, 3600 seconds. -/
def c1Dtl1 : TimeEntryDetail := ⟨⟨739051, ⟨9, 0, 0⟩⟩, ⟨739051, ⟨10, 0, 0⟩⟩, 3600⟩

/-- Second "Design" entry of the scenario: 2024-06-14, 1800 seconds. -/
def c1Dtl2 : TimeEntryDetail := ⟨⟨739051, ⟨10, 30, 0⟩⟩, ⟨739051, ⟨11, 0, 0⟩⟩, 1800⟩

/-- The "Meeting" entry of the scenario: 2024-06-14, 900 seconds. -/
def c1Dtl3 : TimeEntryDetail := ⟨⟨739051, ⟨13, 0, 0⟩⟩, ⟨739051, ⟨13, 15, 0⟩⟩, 900⟩

/-- The scenario input of claim C1. -/
def c1Input : List RawEntry :=
  [⟨"Design", [c1Dtl1]⟩, ⟨"Design", [c1Dtl2]⟩, ⟨"Meeting", [c1Dtl3]⟩]

theorem c1_generate :
    generate_time_report c1Input
      = Except.ok [(739051, mkDayData [mkDayEntry "Design" c1Dtl1, mkDayEntry "Design" c1Dtl2,
          mkDayEntry "Meeting" c1Dtl3])] := rfl

theorem c1_entries_eval :
    [mkDayEntry "Design" c1Dtl1, mkDayEntry "Design" c1Dtl2, mkDayEntry "Meeting" c1Dtl3]
      = [⟨"Design", 1, ⟨9, 0, 0⟩, ⟨10, 0, 0⟩⟩, ⟨"Design", 1/2, ⟨10, 30, 0⟩, ⟨11, 0, 0⟩⟩,
         ⟨"Meeting", 1/5, ⟨13, 0, 0⟩, ⟨13, 15, 0⟩⟩] := by
  simp only [mkDayEntry, c1Dtl1, c1Dtl2, c1Dtl3]
  rw [pyRound1_3600, pyRound1_1800, pyRound1_900]

theorem c1_task_totals :
    (mkDayData [mkDayEntry "Design" c1Dtl1, mkDayEntry "Design" c1Dtl2,
        mkDayEntry "Meeting" c1Dtl3]).task_totals
      = [("Design", 3/2), ("Meeting", 1/5)] := by
  show taskTotals _ = _
  rw [c1_entries_eval]
  norm_num [taskTotals, dictUpd, show ("Design" : String) ≠ "Meeting" by decide]

theorem c1_total_hours :
    (mkDayData [mkDayEntry "Design" c1Dtl1, mkDayEntry "Design" c1Dtl2,
        mkDayEntry "Meeting" c1Dtl3]).total_hours = 17/10 := by
  show totalHours _ = _
  rw [c1_entries_eval]
  norm_num [totalHours]

/-- C1 (counterexample): on the spec's scenario input the code maps "Meeting" to
0.2 hours, not 0.3, and the day total to 1.7, not 1.8: Python's `round` takes the
tie at 0.25 to the even digit. -/
theorem scenario_rounding_counterexample :
    ∃ dd, generate_time_report c1Input = Except.ok [(739051, dd)] ∧
      pyGet dd.task_totals "Meeting" 0 = 1/5 ∧
      pyGet dd.task_totals "Meeting" 0 ≠ 3/10 ∧
      dd.total_hours = 17/10 ∧
      dd.total_hours ≠ 9/5 := by
  refine ⟨_, c1_generate, ?_, ?_, c1_total_hours, ?_⟩
  · rw [c1_task_totals]
    norm_num [pyGet, show ("Design" : String) ≠ "Meeting" by decide]
  · rw [c1_task_totals]
    norm_num [pyGet, show ("Design" : String) ≠ "Meeting" by decide]
  · rw [c1_total_hours]
    norm_num

/-- C1 (amended): the scenario yields `task_totals` mapping "Design" to 1.5 hours
and "Meeting" to 0.2 hours (0.25 h rounds to the even digit under the host's
round-half-even), and `total_hours = 1.7`, each per-entry hours value being
seconds/3600 rounded to one decimal before summation. -/
theorem scenario_rounding_amended :
    ∃ dd, generate_time_report c1Input = Except.ok [(739051, dd)] ∧
      dd.task_totals = [("Design", 3/2), ("Meeting", 1/5)] ∧
      dd.total_hours = 17/10 :=
  ⟨_, c1_generate, c1_task_totals, c1_total_hours⟩

/-! ### The clients map (claim C8) -/

theorem query_toggl_clients_pyGet :
    ∀ (records : List ClientRec) (acc : List (String × ℤ)) (k : String) (d0 : ℤ),
      pyGet (records.foldl (fun acc c => dictUpd acc (pyLower c.name) c.id (fun _ => c.id)) acc)
          k d0
        = ((records.filter (fun c => pyLower c.name = k)).map ClientRec.id).getLastD
            (pyGet acc k d0) := by
  intro records
  induction records with
  | nil => intro acc k d0; simp
  | cons c cs ih =>
      intro acc k d0
      by_cases h : pyLower c.name = k
      · rw [List.foldl_cons, ih, pyGet_dictUpd_const, if_pos h.symm,
          List.filter_cons_of_pos (by simp [h]), List.map_cons, List.getLastD_cons]
      · rw [List.foldl_cons, ih, pyGet_dictUpd_const, if_neg (fun hh => h hh.symm),
          List.filter_cons_of_neg (by simp [h])]

/-- C8: the clients map is keyed by lower-cased client names in first-seen order,
and each key's value is the id of the last record whose lower-cased name equals
the key, so later duplicates (including names differing only in case) overwrite
earlier ones without error. -/
theorem clients_map_lower_overwrite (records : List ClientRec) :
    (query_toggl_clients records).map Prod.fst
      = dedupFirst (records.map (fun c => pyLower c.name)) ∧
    ∀ (k : String) (d0 : ℤ),
      pyGet (query_toggl_clients records) k d0
        = ((records.filter (fun c => pyLower c.name = k)).map ClientRec.id).getLastD d0 := by
  constructor
  · exact foldl_dictUpd_keys (fun c => pyLower c.name) ClientRec.id (fun c _ => c.id)
      records []
  · intro k d0
    exact query_toggl_clients_pyGet records [] k d0

/-! ### The `__main__` control flow (claims C6 and C7) -/

theorem string_isEmpty_false (name : String) (hname : name ≠ "") :
    name.isEmpty = false := by
  rw [Bool.eq_false_iff]
  intro h
  exact hname ((String.isEmpty_iff name).mp h)

theorem pyTruthyStr_of_ne (name : String) (hname : name ≠ "") :
    pyTruthyStr (some name) = true := by
  simp [pyTruthyStr, string_isEmpty_false name hname]

theorem date_range_pos (n d : ℤ) (h : 1 ≤ n) :
    get_previous_date_range n d = some (pyDateFormat (d - n), pyDateFormat d) := by
  rw [get_previous_date_range, if_pos h]

theorem mainFlow_truthy_found (name : String) (clients : List (String × ℤ))
    (numdays today : ℤ) (hname : name ≠ "") (hdays : 1 ≤ numdays)
    (hany : clients.any (fun p => p.1 = pyLower name) = true) :
    mainFlow false (some name) clients numdays today
      = MainOutcome.searched (query_toggl_time_entries_query
          [pyGet clients (pyLower name) 0]
          (pyDateFormat (today - numdays), pyDateFormat today)) := by
  rw [mainFlow, if_neg (by simp), if_pos (by rw [pyTruthyStr_of_ne name hname]),
    Option.getD_some]
  rw [if_pos (by rw [hany]), date_range_pos numdays today hdays]

theorem mainFlow_truthy_missing (name : String) (clients : List (String × ℤ))
    (numdays today : ℤ) (hname : name ≠ "")
    (hany : clients.any (fun p => p.1 = pyLower name) = false) :
    mainFlow false (some name) clients numdays today
      = MainOutcome.clientNotFound (clients.map Prod.fst) := by
  rw [mainFlow, if_neg (by simp), if_pos (by rw [pyTruthyStr_of_ne name hname]),
    Option.getD_some]
  rw [if_neg (by rw [hany]; exact Bool.false_ne_true)]

/-- C6 (counterexample): with `--client ""` (a name the command line can pass),
Python's truthiness test skips the filter branch entirely: the run searches with
an empty filter list instead of printing the client list and exiting 1, even
though `""` is not a key of the clients map. -/
theorem client_empty_name_counterexample :
    mainFlow false (some "") [("acme", 42)] 14 739051
      = MainOutcome.searched (query_toggl_time_entries_query []
          (pyDateFormat (739051 - 14), pyDateFormat 739051)) ∧
    mainFlow false (some "") [("acme", 42)] 14 739051
      ≠ MainOutcome.clientNotFound ["acme"] := by
  refine ⟨rfl, fun hcontra => ?_⟩
  rw [show mainFlow false (some "") [("acme", 42)] 14 739051
      = MainOutcome.searched (query_toggl_time_entries_query []
          (pyDateFormat (739051 - 14), pyDateFormat 739051)) from rfl] at hcontra
  exact MainOutcome.noConfusion hcontra

/-- C6 (amended): for every nonempty `--client` name, on a run whose day count is
valid (`numdays ≥ 1`): if the lower-cased name is a key of the clients map the
search query carries exactly that key's id as a one-element filter list;
otherwise the program prints the known client names and exits with status 1,
never reaching the search. -/
theorem client_filter_resolution (name : String) (clients : List (String × ℤ))
    (numdays today : ℤ) (hname : name ≠ "") (hdays : 1 ≤ numdays) :
    (pyLower name ∈ clients.map Prod.fst →
      mainFlow false (some name) clients numdays today
        = MainOutcome.searched (query_toggl_time_entries_query
            [pyGet clients (pyLower name) 0]
            (pyDateFormat (today - numdays), pyDateFormat today))) ∧
    (pyLower name ∉ clients.map Prod.fst →
      mainFlow false (some name) clients numdays today
        = MainOutcome.clientNotFound (clients.map Prod.fst)) := by
  constructor
  · intro hmem
    apply mainFlow_truthy_found name clients numdays today hname hdays
    rw [List.any_eq_true]
    rcases List.mem_map.mp hmem with ⟨p, hp, hk⟩
    exact ⟨p, hp, by simp [hk]⟩
  · intro hmem
    apply mainFlow_truthy_missing name clients numdays today hname
    rw [List.any_eq_false]
    intro p hp hk
    exact hmem (List.mem_map.mpr ⟨p, hp, by simpa using hk⟩)

/-- C6 witness: `--client "Acme"` against `{"acme": 42}` filters on `[42]`;
`--client "Nope"` prints the known names and exits 1. -/
theorem client_filter_resolution_witness :
    ("Acme" ≠ "") ∧ ((1:ℤ) ≤ 14) ∧
    mainFlow false (some "Acme") [("acme", 42)] 14 739051
      = MainOutcome.searched (query_toggl_time_entries_query
          [pyGet [("acme", 42)] (pyLower "Acme") 0]
          (pyDateFormat (739051 - 14), pyDateFormat 739051)) ∧
    mainFlow false (some "Nope") [("acme", 42)] 14 739051
      = MainOutcome.clientNotFound ["acme"] :=
  ⟨by decide, by decide,
   (client_filter_resolution "Acme" [("acme", 42)] 14 739051 (by decide) (by decide)).1
     (by decide),
   (client_filter_resolution "Nope" [("acme", 42)] 14 739051 (by decide) (by decide)).2
     (by decide)⟩

/-- C7: with `--list_clients` the program prints every known client name in the
map's insertion order and exits 0; the time-entry search is never invoked on
such a run. -/
theorem list_clients_short_circuits (client : Option String) (clients : List (String × ℤ))
    (numdays today : ℤ) :
    mainFlow true client clients numdays today
      = MainOutcome.listedClients (clients.map Prod.fst) ∧
    ∀ q, mainFlow true client clients numdays today ≠ MainOutcome.searched q := by
  refine ⟨rfl, fun q hcontra => ?_⟩
  rw [show mainFlow true client clients numdays today
      = MainOutcome.listedClients (clients.map Prod.fst) from rfl] at hcontra
  exact MainOutcome.noConfusion hcontra

/-! ### Midnight-crossing entries (claim C9) -/

theorem fmtHours1_two : fmtHours1 2 = "2.0" := by
  have h20 : ratFloor ((2:ℚ) * 10) = 20 := by
    rw [show ((2:ℚ) * 10) = ((20:ℤ) : ℚ) by norm_num, ratFloor_eq_floor, Int.floor_intCast]
  simp only [fmtHours1, h20]
  rfl

/-- C9: an entry whose stop falls on a later calendar date than its start is
grouped under the start's date and keeps only the stop's time of day, and its
rendered line is identical to that of a same-day entry with the same times —
nothing marks the midnight crossing. -/
theorem midnight_crossing_entry (desc : String) (dtl : TimeEntryDetail)
    (h : dtl.start.dateOrd < dtl.stop.dateOrd) :
    generate_time_report [⟨desc, [dtl]⟩]
      = Except.ok [(dtl.start.dateOrd, mkDayData [mkDayEntry desc dtl])] ∧
    (mkDayEntry desc dtl).stop_time = dtl.stop.time ∧
    renderEntryLine (mkDayEntry desc dtl)
      = renderEntryLine (mkDayEntry desc ⟨dtl.start, ⟨dtl.start.dateOrd, dtl.stop.time⟩,
          dtl.seconds⟩) :=
  ⟨rfl, rfl, rfl⟩

/-- The concrete midnight-crossing entry used as witness: 23:00 on 2024-06-14 to
01:00 on 2024-06-15, 7200 seconds. -/
def c9Dtl : TimeEntryDetail := ⟨⟨739051, ⟨23, 0, 0⟩⟩, ⟨739052, ⟨1, 0, 0⟩⟩, 7200⟩

/-- C9 witness: the rendered line shows `23:00->01:00` with a stop HH:MM earlier
than the start HH:MM and no midnight marker. -/
theorem midnight_crossing_entry_witness :
    c9Dtl.start.dateOrd < c9Dtl.stop.dateOrd ∧
    (generate_time_report [⟨"Work", [c9Dtl]⟩]
        = Except.ok [(c9Dtl.start.dateOrd, mkDayData [mkDayEntry "Work" c9Dtl])] ∧
      (mkDayEntry "Work" c9Dtl).stop_time = c9Dtl.stop.time ∧
      renderEntryLine (mkDayEntry "Work" c9Dtl)
        = renderEntryLine (mkDayEntry "Work" ⟨c9Dtl.start, ⟨c9Dtl.start.dateOrd,
            c9Dtl.stop.time⟩, c9Dtl.seconds⟩)) ∧
    renderEntryLine (mkDayEntry "Work" c9Dtl) = "Work, 23:00->01:00, 2.0hrs" := by
  refine ⟨by decide, midnight_crossing_entry "Work" c9Dtl (by decide), ?_⟩
  have he : mkDayEntry "Work" c9Dtl = ⟨"Work", 2, ⟨23, 0, 0⟩, ⟨1, 0, 0⟩⟩ := by
    simp only [mkDayEntry, c9Dtl]
    rw [pyRound1_7200]
  rw [he, renderEntryLine, fmtHours1_two]
  rfl
